import Mathlib

/-!
Shallow embedding of `data/CommonMT/Lexical_Ambiguity/alignment_correlation.py`.

The script loads debate transcripts (JSON), rebuilds a (speaker, utterance)
turn sequence per file, writes it to a per-task temporary CSV, calls the
external `dialign` routine on that CSV, extracts metrics, and fans the
per-file tasks out over a process pool, catching every per-file exception
at the task boundary.

External effects (file read + JSON parse, temp file creation, CSV write,
the `dialign` routine, `os.remove`) are modelled as oracles in `TaskEnv`;
resource lifecycle and `dialign` invocations are recorded as an explicit
event trace so that claims about temp-file cleanup and call counts can be
stated.  Python exceptions are modelled as `PyErr` values carrying the
class name, the message, and the stack frames.
-/

namespace AlignmentCorrelation

/-- JSON values as produced by `json.load`.  Numbers are modelled as
rationals (the scripts never do arithmetic on them, only carry them). -/
inductive Json where
  | null : Json
  | bool (b : Bool) : Json
  | num (q : Rat) : Json
  | str (s : String) : Json
  | arr (elems : List Json) : Json
  | obj (fields : List (String × Json)) : Json

/-- A Python exception: class name, message, and stack frames
(`traceback.format_exc` renders a bounded number of the latter). -/
structure PyErr where
  className : String
  msg : String
  frames : List String

/-- `KeyError` raised by `d[k]` on a dict missing `k`.  (Python renders the
message as the repr of the key; we keep the bare key.) -/
def keyError (k : String) : PyErr := ⟨"KeyError", k, []⟩

/-- `KeyError` raised by `d[i]` on a dict, for an integer key `i`. -/
def keyErrorNum (i : Nat) : PyErr := ⟨"KeyError", toString i, []⟩

/-- `IndexError` raised by out-of-range list indexing. -/
def indexError : PyErr := ⟨"IndexError", "list index out of range", []⟩

/-- `TypeError` with a given message. -/
def typeError (m : String) : PyErr := ⟨"TypeError", m, []⟩

/-- Python subscript `v[k]` for a string key `k`: dict lookup, `KeyError`
on a missing key, `TypeError` on non-dict values. -/
def pyGetKey : Json → String → Except PyErr Json
  | .obj fields, k =>
      match fields.lookup k with
      | some v => .ok v
      | none => .error (keyError k)
  | .arr _, _ => .error (typeError "list indices must be integers or slices, not str")
  | .str _, _ => .error (typeError "string indices must be integers")
  | _, _ => .error (typeError "object is not subscriptable")

/-- Python subscript `v[i]` for an integer index `i`: list indexing with
`IndexError` out of range, character extraction on strings, `KeyError` on
dicts, `TypeError` otherwise. -/
def pyIndex : Json → Nat → Except PyErr Json
  | .arr xs, i =>
      match xs.get? i with
      | some v => .ok v
      | none => .error indexError
  | .str s, i =>
      match s.toList.get? i with
      | some c => .ok (.str (String.singleton c))
      | none => .error indexError
  | .obj _, i => .error (keyErrorNum i)
  | _, _ => .error (typeError "object is not subscriptable")

/-- Python slice `v[n:]`: suffix of a list (never raises on lists),
suffix of a string as one-character strings, `TypeError` otherwise. -/
def pySliceFrom : Json → Nat → Except PyErr (List Json)
  | .arr xs, n => .ok (xs.drop n)
  | .str s, n => .ok ((s.toList.drop n).map fun c => .str (String.singleton c))
  | _, _ => .error (typeError "unhashable type: slice")

/-- One row of the table handed to `dialign`: a Speaker/Utterance pair,
as appended to `data` in `build_turns_from_debate`. -/
structure Row where
  speaker : String
  utterance : Json

/-- The loop of `build_turns_from_debate`:
`for i, utt in enumerate(debate['players']['Negative side'][2:])`,
appending a row with speaker alternating by the parity of `i`. -/
def buildRows : List Json → Nat → Except PyErr (List Row)
  | [], _ => .ok []
  | utt :: rest, i =>
      match pyGetKey utt "content" with
      | .error e => .error e
      | .ok content =>
        match buildRows rest (i + 1) with
        | .error e => .error e
        | .ok rows =>
            .ok ({ speaker := if i % 2 == 0 then "Negative side" else "Affirmative side",
                   utterance := content } :: rows)

/-- `build_turns_from_debate(debate)`: the seed row is
`debate['players']['Affirmative side'][5]['content']` with speaker
"Affirmative side", then the alternation loop over
`debate['players']['Negative side'][2:]`. -/
def build_turns_from_debate (debate : Json) : Except PyErr (List Row) :=
  match pyGetKey debate "players" with
  | .error e => .error e
  | .ok players =>
    match pyGetKey players "Affirmative side" with
    | .error e => .error e
    | .ok aff =>
      match pyIndex aff 5 with
      | .error e => .error e
      | .ok fifth =>
        match pyGetKey fifth "content" with
        | .error e => .error e
        | .ok seedContent =>
          match pyGetKey players "Negative side" with
          | .error e => .error e
          | .ok neg =>
            match pySliceFrom neg 2 with
            | .error e => .error e
            | .ok rest =>
              match buildRows rest 0 with
              | .error e => .error e
              | .ok rows =>
                  .ok ({ speaker := "Affirmative side", utterance := seedContent } :: rows)

/-- The five components returned by the external `dialign` routine.
The script treats them as loosely-structured values and subscripts the
first two with string keys, so they are kept as `Json`. -/
structure DialignRet where
  speaker_independent : Json
  speaker_dependent : Json
  shared_expressions : Json
  self_repetitions : Json
  online_metrics : Json

/-- The fields of the success dict returned by `process_one_file`
(everything after `"ok": True`). -/
structure SuccessData where
  file : String
  comet : Json
  er : Json
  ee : Json
  aff_rep : Json
  neg_rep : Json
  aff_est : Json
  neg_est : Json
  aff_init : Json

/-- The tagged union returned by `process_one_file`: the success dict
(`"ok": True`) or the error dict (`"ok": False` with file, error string,
bounded trace). -/
inductive TaskResult where
  | success (d : SuccessData) : TaskResult
  | failure (file : String) (error : String) (trace : List String) : TaskResult

/-- Oracles for the external effects one task performs, fixed per file:
the outcome of `open` + `json.load`, of `tempfile.NamedTemporaryFile`
(yielding the fresh temp path), of `DataFrame.to_csv` (`none` = success),
of `dialign` on the materialized table, and of `os.remove`. -/
structure TaskEnv where
  readFile : Except PyErr Json
  tmpCreate : Except PyErr String
  csvWrite : Option PyErr
  dialign : List Row → Except PyErr DialignRet
  removeOk : Bool

/-- Observable external events of one task, in program order: temp file
creation, CSV materialization, the `dialign` invocation (with the table
content at the path and the two column labels), and the `os.remove`
attempt with its outcome. -/
inductive Event where
  | tmpCreated (path : String) : Event
  | csvWritten (path : String) (table : List Row) : Event
  | dialignCalled (path : String) (table : List Row) (col1 col2 : String) : Event
  | removeTried (path : String) (ok : Bool) : Event

/-- Scan of the characters of a path, keeping (reversed) the segment read
since the last slash. -/
def basenameChars : List Char → List Char → List Char
  | [], acc => acc.reverse
  | c :: cs, acc => if c == '/' then basenameChars cs [] else basenameChars cs (c :: acc)

/-- `os.path.basename`: the part of the path after the last slash. -/
def basename (p : String) : String := ⟨basenameChars p.toList []⟩

/-- The error dict built by the `except` block of `process_one_file`:
file name, `ClassName: message`, and `traceback.format_exc(limit=3)`
(modelled as the first three frames). -/
def mkFailure (path : String) (e : PyErr) : TaskResult :=
  .failure (basename path) (e.className ++ ": " ++ e.msg) (e.frames.take 3)

/-- The metric extraction in the success dict of `process_one_file`, in
the evaluation order of the dict literal; each subscript can raise and is
then caught by the outer handler. -/
def extractMetrics (path : String) (comet : Json) (ret : DialignRet) :
    Except PyErr SuccessData :=
  match pyGetKey ret.speaker_independent "ER" with
  | .error e => .error e
  | .ok er =>
    match pyGetKey ret.speaker_independent "EE" with
    | .error e => .error e
    | .ok ee =>
      match pyGetKey ret.speaker_dependent "Affirmative side" with
      | .error e => .error e
      | .ok affDep =>
        match pyGetKey affDep "ER" with
        | .error e => .error e
        | .ok aff_rep =>
          match pyGetKey ret.speaker_dependent "Negative side" with
          | .error e => .error e
          | .ok negDep =>
            match pyGetKey negDep "ER" with
            | .error e => .error e
            | .ok neg_rep =>
              match pyGetKey affDep "EE" with
              | .error e => .error e
              | .ok aff_est =>
                match pyGetKey negDep "EE" with
                | .error e => .error e
                | .ok neg_est =>
                  match pyGetKey affDep "Initiated" with
                  | .error e => .error e
                  | .ok aff_init =>
                      .ok { file := basename path, comet := comet, er := er, ee := ee,
                            aff_rep := aff_rep, neg_rep := neg_rep, aff_est := aff_est,
                            neg_est := neg_est, aff_init := aff_init }

/-- `process_one_file(path_to_file)`: load and parse the file, read
`debate['comet score']`, rebuild the turn sequence, write it to a fresh
temp CSV, call `dialign(tmp_path, "Speaker", "Utterance")` guarded by a
`finally` that best-effort removes the temp file, extract the metrics;
any exception is caught by the outer handler and turned into the error
dict.  Returns the result together with the external event trace. -/
def process_one_file (env : TaskEnv) (path_to_file : String) :
    TaskResult × List Event :=
  match env.readFile with
  | .error e => (mkFailure path_to_file e, [])
  | .ok debate =>
    match pyGetKey debate "comet score" with
    | .error e => (mkFailure path_to_file e, [])
    | .ok comet_score =>
      match build_turns_from_debate debate with
      | .error e => (mkFailure path_to_file e, [])
      | .ok data =>
        match env.tmpCreate with
        | .error e => (mkFailure path_to_file e, [])
        | .ok tmp_path =>
          match env.csvWrite with
          | some e => (mkFailure path_to_file e, [.tmpCreated tmp_path])
          | none =>
            let events : List Event :=
              [.tmpCreated tmp_path, .csvWritten tmp_path data,
               .dialignCalled tmp_path data "Speaker" "Utterance",
               .removeTried tmp_path env.removeOk]
            match env.dialign data with
            | .error e => (mkFailure path_to_file e, events)
            | .ok ret =>
              match extractMetrics path_to_file comet_score ret with
              | .error e => (mkFailure path_to_file e, events)
              | .ok d => (.success d, events)

/-- Fold one event into the set of currently existing temp files:
creation adds the path, a successful removal erases it. -/
def applyEvent (s : List String) : Event → List String
  | .tmpCreated p => s ++ [p]
  | .removeTried p true => s.erase p
  | _ => s

/-- The temp files that still exist after a trace of events. -/
def survivors (es : List Event) : List String := es.foldl applyEvent []

/-- The `dialign` invocations in a trace: (table content at the path,
grouping column label, text column label). -/
def dialignCalls : List Event → List (List Row × String × String)
  | [] => []
  | .dialignCalled _ table c1 c2 :: es => (table, c1, c2) :: dialignCalls es
  | _ :: es => dialignCalls es

/-- File discovery in `main`: `os.path.join(debate_path, f)` for each
directory entry `f` that is a regular file (non-recursive; a listing entry
is a name paired with its `os.path.isfile` flag). -/
def gatherFiles (debate_path : String) (listing : List (String × Bool)) : List String :=
  (listing.filter fun x => x.2).map fun x => debate_path ++ "/" ++ x.1

/-- The `TaskResult` the worker pool returns for one submitted path, given
the per-file oracle environments. -/
def runTask (envs : String → TaskEnv) (p : String) : TaskResult :=
  (process_one_file (envs p) p).1

/-- The `r["ok"]` flag of a result. -/
def isOk : TaskResult → Bool
  | .success _ => true
  | .failure _ _ _ => false

/-- The `as_completed` collection loop of `main`, over the futures in
completion order: `fut.result()` re-raises if the worker process crashed
(`BrokenProcessPool`), which `main` does not catch, aborting the batch;
otherwise the result is appended. -/
def collectResults (envs : String → TaskEnv) (crashed : String → Bool) :
    List String → Except String (List TaskResult)
  | [] => .ok []
  | p :: rest =>
      if crashed p then .error "BrokenProcessPool"
      else
        match collectResults envs crashed rest with
        | .error e => .error e
        | .ok rs => .ok (runTask envs p :: rs)

/-- `ok = [r for r in results if r["ok"]]`, projected to the success
fields (which is all `main` reads from the surviving results). -/
def toSuccess : TaskResult → Option SuccessData
  | .success d => some d
  | .failure _ _ _ => none

/-- The successful results of the batch, in collection order. -/
def okResults (results : List TaskResult) : List SuccessData :=
  results.filterMap toSuccess

/-- `comet_scores = [r["comet"] for r in ok]`. -/
def comet_scores (results : List TaskResult) : List Json :=
  (okResults results).map SuccessData.comet

/-- `er = [r["er"] for r in ok]`. -/
def er (results : List TaskResult) : List Json :=
  (okResults results).map SuccessData.er

/-- `ee = [r["ee"] for r in ok]`. -/
def ee (results : List TaskResult) : List Json :=
  (okResults results).map SuccessData.ee

/-- `affirmative_repetitions = [r["aff_rep"] for r in ok]`. -/
def affirmative_repetitions (results : List TaskResult) : List Json :=
  (okResults results).map SuccessData.aff_rep

/-- `negative_repetitions = [r["neg_rep"] for r in ok]`. -/
def negative_repetitions (results : List TaskResult) : List Json :=
  (okResults results).map SuccessData.neg_rep

/-- `affirmative_establishments = [r["aff_est"] for r in ok]`. -/
def affirmative_establishments (results : List TaskResult) : List Json :=
  (okResults results).map SuccessData.aff_est

/-- `negative_establishments = [r["neg_est"] for r in ok]`. -/
def negative_establishments (results : List TaskResult) : List Json :=
  (okResults results).map SuccessData.neg_est

/-- `affirmative_initiated = [r["aff_init"] for r in ok]`. -/
def affirmative_initiated (results : List TaskResult) : List Json :=
  (okResults results).map SuccessData.aff_init

/-! ### Concrete sample data, used by witnesses and counterexamples. -/

/-- A turn object with a `content` field. -/
def sampleTurn (s : String) : Json := .obj [("content", .str s)]

/-- Seven Affirmative-side turns. -/
def sampleAff : List Json :=
  [sampleTurn "a0", sampleTurn "a1", sampleTurn "a2", sampleTurn "a3",
   sampleTurn "a4", sampleTurn "a5", sampleTurn "a6"]

/-- Five Negative-side turns. -/
def sampleNeg : List Json :=
  [sampleTurn "n0", sampleTurn "n1", sampleTurn "n2", sampleTurn "n3",
   sampleTurn "n4"]

/-- A well-formed two-party players object. -/
def samplePlayers : Json :=
  .obj [("Affirmative side", .arr sampleAff), ("Negative side", .arr sampleNeg)]

/-- A well-formed debate record: a comet score, an Affirmative side with
seven turns, a Negative side with five turns. -/
def sampleDebate : Json :=
  .obj [("comet score", .num 85), ("players", samplePlayers)]

/-- The turn sequence `build_turns_from_debate` derives from
`sampleDebate`. -/
def sampleRows : List Row :=
  [⟨"Affirmative side", .str "a5"⟩, ⟨"Negative side", .str "n2"⟩,
   ⟨"Affirmative side", .str "n3"⟩, ⟨"Negative side", .str "n4"⟩]

/-- Only five Affirmative-side turns: index 5 is out of range. -/
def shortAff : List Json :=
  [sampleTurn "a0", sampleTurn "a1", sampleTurn "a2", sampleTurn "a3",
   sampleTurn "a4"]

/-- A players object whose Affirmative side is too short for the seed
row. -/
def shortPlayers : Json :=
  .obj [("Affirmative side", .arr shortAff),
        ("Negative side", .arr [sampleTurn "n0", sampleTurn "n1", sampleTurn "n2"])]

/-- A debate record whose Affirmative side has only five turns. -/
def shortDebate : Json :=
  .obj [("comet score", .num 42), ("players", shortPlayers)]

/-- A well-formed `dialign` return value. -/
def sampleRet : DialignRet :=
  { speaker_independent := .obj [("ER", .num 7), ("EE", .num 8)],
    speaker_dependent :=
      .obj [("Affirmative side",
              .obj [("ER", .num 1), ("EE", .num 2), ("Initiated", .num 3)]),
            ("Negative side",
              .obj [("ER", .num 4), ("EE", .num 5), ("Initiated", .num 6)])],
    shared_expressions := .null,
    self_repetitions := .null,
    online_metrics := .null }

/-- An environment in which every oracle succeeds. -/
def goodEnv : TaskEnv :=
  { readFile := .ok sampleDebate,
    tmpCreate := .ok "/tmp/tmpa1b2.csv",
    csvWrite := none,
    dialign := fun _ => .ok sampleRet,
    removeOk := true }

/-- An environment in which `json.load` raises a decode error. -/
def badParseEnv : TaskEnv :=
  { goodEnv with
    readFile := .error ⟨"JSONDecodeError", "Expecting value: line 1 column 1 (char 0)",
                        ["frame1", "frame2", "frame3", "frame4"]⟩ }

/-- An environment whose `os.remove` fails (it is swallowed by the code). -/
def removeFailEnv : TaskEnv := { goodEnv with removeOk := false }

/-- An environment reading the record whose Affirmative side is too
short. -/
def shortEnv : TaskEnv := { goodEnv with readFile := .ok shortDebate }

/-- A record lacking the expected nested keys: no `players` key at all. -/
def noPlayersDebate : Json := .obj [("comet score", .num 7)]

/-- An environment reading the record without a `players` key. -/
def noPlayersEnv : TaskEnv := { goodEnv with readFile := .ok noPlayersDebate }

/-- The success dict `process_one_file` produces from `goodEnv`. -/
def sampleSuccessData : SuccessData :=
  { file := "a.json", comet := .num 85, er := .num 7, ee := .num 8,
    aff_rep := .num 1, neg_rep := .num 4, aff_est := .num 2,
    neg_est := .num 5, aff_init := .num 3 }

/-- The event trace `process_one_file` produces from `goodEnv`. -/
def sampleEvents : List Event :=
  [.tmpCreated "/tmp/tmpa1b2.csv", .csvWritten "/tmp/tmpa1b2.csv" sampleRows,
   .dialignCalled "/tmp/tmpa1b2.csv" sampleRows "Speaker" "Utterance",
   .removeTried "/tmp/tmpa1b2.csv" true]

/-- A two-file directory listing with one non-file entry. -/
def c1Listing : List (String × Bool) :=
  [("a.json", true), ("bad.json", true), ("subdir", false)]

/-- The discovered files of `c1Listing`, in reversed completion order. -/
def c1Order : List String :=
  ["MAD_Debate_Process/bad.json", "MAD_Debate_Process/a.json"]

/-- Per-file environments: `bad.json` fails to parse, the rest succeed. -/
def c1Envs (p : String) : TaskEnv :=
  if p = "MAD_Debate_Process/bad.json" then badParseEnv else goodEnv

/-! ### Structural lemmas about the embedding. -/

/-- A successful run of the alternation loop yields one row per remaining
turn. -/
theorem buildRows_length (l : List Json) : ∀ (i : Nat) (rows : List Row),
    buildRows l i = .ok rows → rows.length = l.length := by
  induction l with
  | nil =>
      intro i rows h
      simp only [buildRows] at h
      cases h
      rfl
  | cons utt rest ih =>
      intro i rows h
      simp only [buildRows] at h
      split at h
      · cases h
      · split at h
        · cases h
        · rename_i x1 content hc x2 rows2 hr
          cases h
          simp [ih (i + 1) rows2 hr]

/-- Each row of a successful alternation loop: the speaker alternates
with the parity of the enumeration index, the utterance is the `content`
field of the corresponding input element. -/
theorem buildRows_get (l : List Json) : ∀ (i j : Nat) (rows : List Row) (r : Row),
    buildRows l i = .ok rows → rows.get? j = some r →
    (r.speaker = if (i + j) % 2 = 0 then "Negative side" else "Affirmative side") ∧
    ∃ u, l.get? j = some u ∧ pyGetKey u "content" = .ok r.utterance := by
  induction l with
  | nil =>
      intro i j rows r h hg
      simp only [buildRows] at h
      cases h
      simp at hg
  | cons utt rest ih =>
      intro i j rows r h hg
      simp only [buildRows] at h
      split at h
      · cases h
      · split at h
        · cases h
        · rename_i x1 content hc x2 rows2 hr
          cases h
          cases j with
          | zero =>
              simp at hg
              subst hg
              refine ⟨?_, utt, rfl, hc⟩
              by_cases hp : i % 2 = 0 <;> simp [hp]
          | succ j =>
              have hmain := ih (i + 1) j rows2 r hr (by simpa using hg)
              refine ⟨?_, ?_⟩
              · have harith : (i + 1 + j) % 2 = (i + (j + 1)) % 2 := by omega
                rw [← harith]
                exact hmain.1
              · simpa using hmain.2

/-- Inversion of a successful `build_turns_from_debate`: every subscript
along the way succeeded and the result is the seed row followed by the
loop rows. -/
theorem build_turns_ok (debate : Json) (rows : List Row)
    (h : build_turns_from_debate debate = .ok rows) :
    ∃ players aff fifth seedContent neg rest tail,
      pyGetKey debate "players" = .ok players ∧
      pyGetKey players "Affirmative side" = .ok aff ∧
      pyIndex aff 5 = .ok fifth ∧
      pyGetKey fifth "content" = .ok seedContent ∧
      pyGetKey players "Negative side" = .ok neg ∧
      pySliceFrom neg 2 = .ok rest ∧
      buildRows rest 0 = .ok tail ∧
      rows = { speaker := "Affirmative side", utterance := seedContent } :: tail := by
  simp only [build_turns_from_debate] at h
  repeat' split at h
  all_goals try (cases h; done)
  rename_i x1 players h1 x2 aff h2 x3 fifth h3 x4 sc h4 x5 neg h5 x6 rest h6 x7 tail h7
  injection h with h8
  subst h8
  exact ⟨players, aff, fifth, sc, neg, rest, tail, h1, h2, h3, h4, h5, h6, h7, rfl⟩

/-- `process_one_file` always returns either the success dict or the
error dict built by `mkFailure` for its own path: the outer handler
converts every failure and nothing escapes. -/
theorem process_result_shape (env : TaskEnv) (p : String) :
    (∃ d events, process_one_file env p = (.success d, events)) ∨
    (∃ e events, process_one_file env p = (mkFailure p e, events)) := by
  unfold process_one_file
  repeat' split
  all_goals first
    | exact .inr ⟨_, _, rfl⟩
    | exact .inl ⟨_, _, rfl⟩

/-- Inversion of a successful `process_one_file`: every oracle succeeded
and the event trace is creation, materialization, the single `dialign`
call, and the removal attempt. -/
theorem process_success_inv (env : TaskEnv) (p : String) (d : SuccessData)
    (events : List Event) (h : process_one_file env p = (.success d, events)) :
    ∃ debate comet data tmp ret,
      env.readFile = .ok debate ∧
      pyGetKey debate "comet score" = .ok comet ∧
      build_turns_from_debate debate = .ok data ∧
      env.tmpCreate = .ok tmp ∧
      env.csvWrite = none ∧
      env.dialign data = .ok ret ∧
      extractMetrics p comet ret = .ok d ∧
      events = [.tmpCreated tmp, .csvWritten tmp data,
                .dialignCalled tmp data "Speaker" "Utterance",
                .removeTried tmp env.removeOk] := by
  simp only [process_one_file] at h
  repeat' split at h
  all_goals simp only [mkFailure, Prod.mk.injEq, reduceCtorEq, false_and] at h
  rename_i x1 debate h1 x2 comet h2 x3 data h3 x4 tmp h4 x5 h5 x6 ret h6 x7 d2 h7
  simp only [TaskResult.success.injEq] at h
  obtain ⟨hd, he⟩ := h
  subst hd
  subst he
  exact ⟨debate, comet, data, tmp, ret, h1, h2, h3, h4, h5, h6, h7, rfl⟩

/-- Inversion of a successful metric extraction: each field of the
success dict is the corresponding subscript of the `dialign` result. -/
theorem extractMetrics_ok (p : String) (comet : Json) (ret : DialignRet) (d : SuccessData)
    (h : extractMetrics p comet ret = .ok d) :
    d.file = basename p ∧ d.comet = comet ∧
    pyGetKey ret.speaker_independent "ER" = .ok d.er ∧
    pyGetKey ret.speaker_independent "EE" = .ok d.ee ∧
    (∃ affDep, pyGetKey ret.speaker_dependent "Affirmative side" = .ok affDep ∧
      pyGetKey affDep "ER" = .ok d.aff_rep ∧ pyGetKey affDep "EE" = .ok d.aff_est ∧
      pyGetKey affDep "Initiated" = .ok d.aff_init) ∧
    (∃ negDep, pyGetKey ret.speaker_dependent "Negative side" = .ok negDep ∧
      pyGetKey negDep "ER" = .ok d.neg_rep ∧ pyGetKey negDep "EE" = .ok d.neg_est) := by
  simp only [extractMetrics] at h
  repeat' split at h
  all_goals try (cases h; done)
  rename_i x1 e1 h1 x2 e2 h2 x3 affDep h3 x4 e4 h4 x5 negDep h5 x6 e6 h6 x7 e7 h7 x8 e8 h8 x9 e9 h9
  injection h with h10
  subst h10
  exact ⟨rfl, rfl, h1, h2, ⟨affDep, h3, h4, h7, h9⟩, ⟨negDep, h5, h6, h8⟩⟩

/-- Inversion of a failure result: it was built by `mkFailure` from some
exception, so it names the file and carries class, message, and the
bounded trace. -/
theorem process_failure_inv (env : TaskEnv) (p f err : String) (tr : List String)
    (events : List Event) (h : process_one_file env p = (.failure f err tr, events)) :
    ∃ e : PyErr, f = basename p ∧ err = e.className ++ ": " ++ e.msg ∧ tr = e.frames.take 3 := by
  rcases process_result_shape env p with ⟨d, ev, hs⟩ | ⟨e, ev, hf⟩
  · rw [hs] at h
    simp [Prod.mk.injEq] at h
  · rw [hf] at h
    simp only [mkFailure, Prod.mk.injEq, TaskResult.failure.injEq] at h
    obtain ⟨⟨h1, h2, h3⟩, h4⟩ := h
    exact ⟨e, h1.symm, h2.symm, h3.symm⟩

/-- When no worker crashes, the collection loop returns one result per
submitted path, in completion order. -/
theorem collect_noCrash (envs : String → TaskEnv) (crashed : String → Bool) :
    ∀ (order : List String), (∀ p ∈ order, crashed p = false) →
      collectResults envs crashed order = .ok (order.map (runTask envs)) := by
  intro order
  induction order with
  | nil => intro _; rfl
  | cons p rest ih =>
      intro h
      have hp : crashed p = false := h p (by simp)
      rw [collectResults, if_neg (by simp [hp]), ih (fun q hq => h q (by simp [hq]))]
      rfl

/-- Success and failure counts partition a result list. -/
theorem countP_ok_sub (l : List TaskResult) :
    l.countP isOk = l.length - l.countP (fun r => ! isOk r) := by
  have h1 := List.length_eq_countP_add_countP (p := isOk) (l := l)
  have h2 : l.countP (fun r => ! isOk r) = l.countP (fun a => decide ¬(isOk a = true)) := by
    apply List.countP_congr
    intro a _
    simp
  omega

/-- The surviving results are exactly the results whose ok flag is set. -/
theorem okResults_length (results : List TaskResult) :
    (okResults results).length = results.countP isOk := by
  induction results with
  | nil => rfl
  | cons r rest ih =>
      cases r <;> simp [okResults, toSuccess, isOk, List.countP_cons, List.filterMap_cons] at * <;>
        omega

/-! ### Claims. -/

/-- C1: for any discovered file set (regular entries directly under the
directory) and any completion order of the tasks, the batch collects one
TaskResult per discovered file; the number of Failure results and the
number of Success results are those determined by the per-file runs, and
the totals N, M, N minus M are independent of the completion order. -/
theorem C1_batch_counts (envs : String → TaskEnv) (crashed : String → Bool)
    (dir : String) (listing : List (String × Bool)) (order : List String)
    (hperm : order.Perm (gatherFiles dir listing))
    (hnc : ∀ p ∈ order, crashed p = false) :
    collectResults envs crashed order = .ok (order.map (runTask envs)) ∧
    (order.map (runTask envs)).Perm ((gatherFiles dir listing).map (runTask envs)) ∧
    (order.map (runTask envs)).length = (listing.filter fun x => x.2).length ∧
    (order.map (runTask envs)).countP (fun r => ! isOk r) =
      ((gatherFiles dir listing).map (runTask envs)).countP (fun r => ! isOk r) ∧
    (order.map (runTask envs)).countP isOk =
      (listing.filter fun x => x.2).length -
        ((gatherFiles dir listing).map (runTask envs)).countP (fun r => ! isOk r) := by
  have hmap := hperm.map (runTask envs)
  have hlen : (order.map (runTask envs)).length = (listing.filter fun x => x.2).length := by
    rw [hmap.length_eq]
    simp [gatherFiles]
  have hfail := hmap.countP_eq (fun r => ! isOk r)
  refine ⟨collect_noCrash envs crashed order hnc, hmap, hlen, hfail, ?_⟩
  rw [countP_ok_sub, hlen, hfail]

/-- Witness for C1: a directory with two regular files and one
sub-directory, `bad.json` failing to parse, collected in reversed
order. -/
theorem C1_batch_counts_witness :
    collectResults c1Envs (fun _ => false) c1Order = .ok (c1Order.map (runTask c1Envs)) ∧
    (c1Order.map (runTask c1Envs)).Perm
      ((gatherFiles "MAD_Debate_Process" c1Listing).map (runTask c1Envs)) ∧
    (c1Order.map (runTask c1Envs)).length = (c1Listing.filter fun x => x.2).length ∧
    (c1Order.map (runTask c1Envs)).countP (fun r => ! isOk r) =
      ((gatherFiles "MAD_Debate_Process" c1Listing).map (runTask c1Envs)).countP
        (fun r => ! isOk r) ∧
    (c1Order.map (runTask c1Envs)).countP isOk =
      (c1Listing.filter fun x => x.2).length -
        ((gatherFiles "MAD_Debate_Process" c1Listing).map (runTask c1Envs)).countP
          (fun r => ! isOk r) :=
  C1_batch_counts c1Envs (fun _ => false) "MAD_Debate_Process" c1Listing c1Order
    (List.Perm.swap _ _ _) (fun p _ => rfl)

/-- C2: every failure of a task is caught at the task boundary and
becomes a Failure TaskResult naming the file (its basename) with an error
string of the form class-name, colon, message, and a trace of at most
three frames; and a collected batch is exactly the independent per-file
results, so one failing file never changes the result of another. -/
theorem C2_failure_isolation :
    (∀ (env : TaskEnv) (p f err : String) (tr : List String) (events : List Event),
        process_one_file env p = (.failure f err tr, events) →
        f = basename p ∧ tr.length ≤ 3 ∧
        ∃ e : PyErr, err = e.className ++ ": " ++ e.msg ∧ tr = e.frames.take 3) ∧
    (∀ (envs : String → TaskEnv) (crashed : String → Bool) (order : List String)
        (rs : List TaskResult),
        collectResults envs crashed order = .ok rs → rs = order.map (runTask envs)) := by
  constructor
  · intro env p f err tr events h
    obtain ⟨e, h1, h2, h3⟩ := process_failure_inv env p f err tr events h
    refine ⟨h1, ?_, e, h2, h3⟩
    rw [h3]
    exact List.length_take_le 3 e.frames
  · intro envs crashed order
    induction order with
    | nil =>
        intro rs h
        simp only [collectResults] at h
        injection h with h
        simp [← h]
    | cons p rest ih =>
        intro rs h
        simp only [collectResults] at h
        split at h
        · cases h
        · split at h
          · cases h
          · rename_i rs2 hr
            injection h with h
            rw [← h, ih rs2 hr]
            rfl

/-- Witness for C2: a file whose JSON parse fails yields the error dict
with the basename, the class-and-message string and three of the four
frames; and a one-file batch collects exactly the per-file result. -/
theorem C2_failure_isolation_witness :
    ("a.json" = basename "MAD_Debate_Process/a.json" ∧
      (["frame1", "frame2", "frame3"] : List String).length ≤ 3 ∧
      ∃ e : PyErr,
        "JSONDecodeError: Expecting value: line 1 column 1 (char 0)" =
          e.className ++ ": " ++ e.msg ∧
        ["frame1", "frame2", "frame3"] = e.frames.take 3) ∧
    [(TaskResult.success sampleSuccessData)] =
      (["MAD_Debate_Process/a.json"] : List String).map (runTask fun _ => goodEnv) :=
  ⟨C2_failure_isolation.1 badParseEnv "MAD_Debate_Process/a.json" "a.json"
      "JSONDecodeError: Expecting value: line 1 column 1 (char 0)"
      ["frame1", "frame2", "frame3"] [] rfl,
   C2_failure_isolation.2 (fun _ => goodEnv) (fun _ => false)
      ["MAD_Debate_Process/a.json"] [.success sampleSuccessData] rfl⟩

/-- C3: a TurnSequence successfully derived from a Record has length
1 + (length of the Negative side turn list − 2), with truncated natural
subtraction; in particular a Negative side with exactly 2 entries gives
length 1. -/
theorem C3_turns_length (debate players : Json) (neg : List Json) (rows : List Row)
    (hp : pyGetKey debate "players" = .ok players)
    (hn : pyGetKey players "Negative side" = .ok (.arr neg))
    (hb : build_turns_from_debate debate = .ok rows) :
    rows.length = 1 + (neg.length - 2) := by
  obtain ⟨players2, aff, fifth, sc, neg2, rest, tail, h1, h2, h3, h4, h5, h6, h7, h8⟩ :=
    build_turns_ok debate rows hb
  rw [hp] at h1
  injection h1 with h1
  subst h1
  rw [hn] at h5
  injection h5 with h5
  subst h5
  simp only [pySliceFrom] at h6
  injection h6 with h6
  subst h6
  have hlen := buildRows_length (neg.drop 2) 0 tail h7
  subst h8
  simp [hlen]
  omega

/-- Witness for C3: the sample Record has a Negative side of 5 turns and
yields 4 rows = 1 + (5 − 2). -/
theorem C3_turns_length_witness : sampleRows.length = 1 + (sampleNeg.length - 2) :=
  C3_turns_length sampleDebate samplePlayers sampleNeg sampleRows rfl rfl rfl

/-- C4: row 0 of a derived TurnSequence carries the label
"Affirmative side", and row i+1 is built from element 2+i of the Negative
side list, labelled "Negative side" for even i and "Affirmative side" for
odd i. -/
theorem C4_turns_alternation (debate players : Json) (neg : List Json) (rows : List Row)
    (hp : pyGetKey debate "players" = .ok players)
    (hn : pyGetKey players "Negative side" = .ok (.arr neg))
    (hb : build_turns_from_debate debate = .ok rows) :
    ∃ seed tail, rows = seed :: tail ∧ seed.speaker = "Affirmative side" ∧
      ∀ i r, tail.get? i = some r →
        (r.speaker = if i % 2 = 0 then "Negative side" else "Affirmative side") ∧
        ∃ u, neg.get? (2 + i) = some u ∧ pyGetKey u "content" = .ok r.utterance := by
  obtain ⟨players2, aff, fifth, sc, neg2, rest, tail, h1, h2, h3, h4, h5, h6, h7, h8⟩ :=
    build_turns_ok debate rows hb
  rw [hp] at h1
  injection h1 with h1
  subst h1
  rw [hn] at h5
  injection h5 with h5
  subst h5
  simp only [pySliceFrom] at h6
  injection h6 with h6
  subst h6
  refine ⟨_, tail, h8, rfl, ?_⟩
  intro i r hg
  have hmain := buildRows_get (neg.drop 2) 0 i tail r h7 hg
  refine ⟨by simpa using hmain.1, ?_⟩
  obtain ⟨u, hu, hc⟩ := hmain.2
  rw [List.get?_drop] at hu
  exact ⟨u, hu, hc⟩

/-- Witness for C4: the alternation on the sample Record. -/
theorem C4_turns_alternation_witness :
    ∃ seed tail, sampleRows = seed :: tail ∧ seed.speaker = "Affirmative side" ∧
      ∀ i r, tail.get? i = some r →
        (r.speaker = if i % 2 = 0 then "Negative side" else "Affirmative side") ∧
        ∃ u, sampleNeg.get? (2 + i) = some u ∧ pyGetKey u "content" = .ok r.utterance :=
  C4_turns_alternation sampleDebate samplePlayers sampleNeg sampleRows rfl rfl rfl

/-- C5 (amended): provided the CSV materialization succeeds and the
removal call itself succeeds, the per-task temporary resource is removed
after use regardless of whether the task later succeeds or fails: no temp
file survives the task.  (As stated the claim is refuted by
`C5_cleanup_counterexample`: a swallowed removal failure, or a CSV write
failure occurring after creation but before the guarded region, leaves
the resource behind.) -/
theorem C5_cleanup_amended (env : TaskEnv) (p : String) (h1 : env.csvWrite = none)
    (h2 : env.removeOk = true) :
    survivors (process_one_file env p).2 = [] := by
  unfold process_one_file
  repeat' split
  all_goals simp_all [survivors, applyEvent]

/-- Witness for C5: with a successful CSV write and removal, the sample
task leaves no temp file. -/
theorem C5_cleanup_amended_witness :
    goodEnv.csvWrite = none ∧ goodEnv.removeOk = true ∧
    survivors (process_one_file goodEnv "MAD_Debate_Process/a.json").2 = [] :=
  ⟨rfl, rfl, C5_cleanup_amended goodEnv "MAD_Debate_Process/a.json" rfl rfl⟩

/-- Counterexample to C5 as stated: a task whose `os.remove` fails (the
failure is swallowed) still returns Success, yet its temporary CSV
survives the run, so removal is not guaranteed regardless of failure. -/
theorem C5_cleanup_counterexample :
    isOk (process_one_file removeFailEnv "MAD_Debate_Process/a.json").1 = true ∧
    survivors (process_one_file removeFailEnv "MAD_Debate_Process/a.json").2 =
      ["/tmp/tmpa1b2.csv"] :=
  ⟨rfl, rfl⟩

/-- C6: the aggregated arrays all have length equal to the number of
Success results, and at every index every array reads its value from the
same Success result, keeping quality score and metrics index-aligned. -/
theorem C6_aggregation_alignment (results : List TaskResult) :
    (comet_scores results).length = results.countP isOk ∧
    (er results).length = results.countP isOk ∧
    (ee results).length = results.countP isOk ∧
    (affirmative_repetitions results).length = results.countP isOk ∧
    (negative_repetitions results).length = results.countP isOk ∧
    (affirmative_establishments results).length = results.countP isOk ∧
    (negative_establishments results).length = results.countP isOk ∧
    (affirmative_initiated results).length = results.countP isOk ∧
    ∀ i : Nat,
      (comet_scores results).get? i = ((okResults results).get? i).map SuccessData.comet ∧
      (er results).get? i = ((okResults results).get? i).map SuccessData.er ∧
      (ee results).get? i = ((okResults results).get? i).map SuccessData.ee ∧
      (affirmative_repetitions results).get? i =
        ((okResults results).get? i).map SuccessData.aff_rep ∧
      (negative_repetitions results).get? i =
        ((okResults results).get? i).map SuccessData.neg_rep ∧
      (affirmative_establishments results).get? i =
        ((okResults results).get? i).map SuccessData.aff_est ∧
      (negative_establishments results).get? i =
        ((okResults results).get? i).map SuccessData.neg_est ∧
      (affirmative_initiated results).get? i =
        ((okResults results).get? i).map SuccessData.aff_init := by
  refine ⟨?_, ?_, ?_, ?_, ?_, ?_, ?_, ?_, ?_⟩ <;>
    simp [comet_scores, er, ee, affirmative_repetitions, negative_repetitions,
      affirmative_establishments, negative_establishments, affirmative_initiated,
      okResults_length, List.get?_map]

/-- C7: a successfully processed file invoked `dialign` exactly once,
with the materialized table of its TurnSequence and the fixed labels
"Speaker" and "Utterance"; the Success result carries the top-level comet
score of the record, the global ER and EE, per-speaker ER and EE for both
speakers, and the Initiated metric of the Affirmative side. -/
theorem C7_dialign_once (env : TaskEnv) (p : String) (d : SuccessData) (events : List Event)
    (h : process_one_file env p = (.success d, events)) :
    ∃ debate data ret,
      env.readFile = .ok debate ∧
      build_turns_from_debate debate = .ok data ∧
      dialignCalls events = [(data, "Speaker", "Utterance")] ∧
      env.dialign data = .ok ret ∧
      d.file = basename p ∧
      pyGetKey debate "comet score" = .ok d.comet ∧
      pyGetKey ret.speaker_independent "ER" = .ok d.er ∧
      pyGetKey ret.speaker_independent "EE" = .ok d.ee ∧
      (∃ affDep, pyGetKey ret.speaker_dependent "Affirmative side" = .ok affDep ∧
        pyGetKey affDep "ER" = .ok d.aff_rep ∧ pyGetKey affDep "EE" = .ok d.aff_est ∧
        pyGetKey affDep "Initiated" = .ok d.aff_init) ∧
      (∃ negDep, pyGetKey ret.speaker_dependent "Negative side" = .ok negDep ∧
        pyGetKey negDep "ER" = .ok d.neg_rep ∧ pyGetKey negDep "EE" = .ok d.neg_est) := by
  obtain ⟨debate, comet, data, tmp, ret, h1, h2, h3, h4, h5, h6, h7, h8⟩ :=
    process_success_inv env p d events h
  obtain ⟨e1, e2, e3, e4, e5, e6⟩ := extractMetrics_ok p comet ret d h7
  subst h8
  refine ⟨debate, data, ret, h1, h3, by simp [dialignCalls], h6, e1, ?_, e3, e4, e5, e6⟩
  rw [← e2] at h2
  exact h2

/-- Witness for C7: the sample environment, whose task succeeds. -/
theorem C7_dialign_once_witness :
    ∃ debate data ret,
      goodEnv.readFile = .ok debate ∧
      build_turns_from_debate debate = .ok data ∧
      dialignCalls sampleEvents = [(data, "Speaker", "Utterance")] ∧
      goodEnv.dialign data = .ok ret ∧
      sampleSuccessData.file = basename "MAD_Debate_Process/a.json" ∧
      pyGetKey debate "comet score" = .ok sampleSuccessData.comet ∧
      pyGetKey ret.speaker_independent "ER" = .ok sampleSuccessData.er ∧
      pyGetKey ret.speaker_independent "EE" = .ok sampleSuccessData.ee ∧
      (∃ affDep, pyGetKey ret.speaker_dependent "Affirmative side" = .ok affDep ∧
        pyGetKey affDep "ER" = .ok sampleSuccessData.aff_rep ∧
        pyGetKey affDep "EE" = .ok sampleSuccessData.aff_est ∧
        pyGetKey affDep "Initiated" = .ok sampleSuccessData.aff_init) ∧
      (∃ negDep, pyGetKey ret.speaker_dependent "Negative side" = .ok negDep ∧
        pyGetKey negDep "ER" = .ok sampleSuccessData.neg_rep ∧
        pyGetKey negDep "EE" = .ok sampleSuccessData.neg_est) :=
  C7_dialign_once goodEnv "MAD_Debate_Process/a.json" sampleSuccessData sampleEvents rfl

/-- C8: the outcome of the removal attempt never changes the TaskResult;
in particular a task whose alignment computation succeeded is still a
Success when `os.remove` fails, since that failure is swallowed. -/
theorem C8_remove_swallowed (env : TaskEnv) (p : String) (b : Bool) :
    (process_one_file { env with removeOk := b } p).1 = (process_one_file env p).1 := by
  obtain ⟨rf, tc, cw, dl, rm⟩ := env
  simp only [process_one_file]
  repeat' split
  all_goals simp_all

/-- C9 (amended): when a worker crashes without returning a TaskResult,
`fut.result()` raises and `main` does not catch it: the collection loop
aborts with the pool error and produces no result list, so no Failure
TaskResult is produced for the crashed file.  (The claim as stated is
refuted by `C9_crash_counterexample`.) -/
theorem C9_crash_aborts (envs : String → TaskEnv) (crashed : String → Bool) :
    ∀ (order : List String) (p : String), p ∈ order → crashed p = true →
      collectResults envs crashed order = .error "BrokenProcessPool" := by
  intro order
  induction order with
  | nil => intro p hp; simp at hp
  | cons q rest ih =>
      intro p hp hc
      by_cases hq : crashed q = true
      · rw [collectResults, if_pos hq]
      · have hpr : p ∈ rest := by
          rcases List.mem_cons.mp hp with h1 | h1
          · exact absurd (h1 ▸ hc) hq
          · exact h1
        rw [collectResults, if_neg hq, ih p hpr hc]

/-- Witness for C9 (amended): a one-file batch whose worker crashes
aborts with the pool error. -/
theorem C9_crash_aborts_witness :
    "MAD_Debate_Process/a.json" ∈ (["MAD_Debate_Process/a.json"] : List String) ∧
    collectResults (fun _ => goodEnv) (fun _ => true) ["MAD_Debate_Process/a.json"] =
      .error "BrokenProcessPool" :=
  ⟨List.mem_singleton.mpr rfl,
   C9_crash_aborts (fun _ => goodEnv) (fun _ => true) ["MAD_Debate_Process/a.json"]
     "MAD_Debate_Process/a.json" (List.mem_singleton.mpr rfl) rfl⟩

/-- Counterexample to C9 as stated: with one crashed worker the batch
does not produce any list of TaskResults at all (so in particular no
Failure TaskResult for that file): collection aborts. -/
theorem C9_crash_counterexample :
    ¬ ∃ rs : List TaskResult,
        collectResults (fun _ => goodEnv) (fun _ => true)
          ["MAD_Debate_Process/a.json"] = .ok rs := by
  rintro ⟨rs, h⟩
  simp [collectResults] at h

/-- C10: the seed utterance is the content of the Affirmative side turn
at index 5; a record whose Affirmative side list has fewer than 6 entries
makes the task return a Failure TaskResult naming the file, not a crash
and not a Success; and the same holds for every record on which the turn
reconstruction fails at all, which covers every record lacking the
expected nested keys (any failing subscript in the chain makes
`build_turns_from_debate` return that error). -/
theorem C10_seed_index :
    (∀ (debate players : Json) (aff : List Json) (rows : List Row),
        pyGetKey debate "players" = .ok players →
        pyGetKey players "Affirmative side" = .ok (.arr aff) →
        build_turns_from_debate debate = .ok rows →
        ∃ fifth seed tail, aff.get? 5 = some fifth ∧ rows = seed :: tail ∧
          pyGetKey fifth "content" = .ok seed.utterance) ∧
    (∀ (env : TaskEnv) (p : String) (debate players : Json) (aff : List Json),
        env.readFile = .ok debate →
        pyGetKey debate "players" = .ok players →
        pyGetKey players "Affirmative side" = .ok (.arr aff) →
        aff.length < 6 →
        ∃ err tr events,
          process_one_file env p = (.failure (basename p) err tr, events)) ∧
    (∀ (env : TaskEnv) (p : String) (debate : Json) (e : PyErr),
        env.readFile = .ok debate →
        build_turns_from_debate debate = .error e →
        ∃ err tr events,
          process_one_file env p = (.failure (basename p) err tr, events)) := by
  refine ⟨?_, ?_, ?_⟩
  · intro debate players aff rows hp ha hb
    obtain ⟨players2, aff2, fifth, sc, neg2, rest, tail, h1, h2, h3, h4, h5, h6, h7, h8⟩ :=
      build_turns_ok debate rows hb
    rw [hp] at h1
    injection h1 with h1
    subst h1
    rw [ha] at h2
    injection h2 with h2
    subst h2
    simp only [pyIndex] at h3
    split at h3
    · rename_i v hv
      injection h3 with h3
      subst h3
      exact ⟨v, _, tail, hv, h8, h4⟩
    · cases h3
  · intro env p debate players aff hr hp ha hlen
    have hnone : aff[5]? = none := List.getElem?_eq_none (by omega)
    have hidx : pyIndex (.arr aff) 5 = .error indexError := by
      simp [pyIndex, hnone]
    have hbuild : build_turns_from_debate debate = .error indexError := by
      simp [build_turns_from_debate, hp, ha, hidx]
    cases hc : pyGetKey debate "comet score" with
    | error e =>
        have hres : process_one_file env p = (mkFailure p e, []) := by
          simp [process_one_file, hr, hc]
        exact ⟨_, _, _, by rw [hres]; rfl⟩
    | ok c =>
        have hres : process_one_file env p = (mkFailure p indexError, []) := by
          simp [process_one_file, hr, hc, hbuild]
        exact ⟨_, _, _, by rw [hres]; rfl⟩
  · intro env p debate e hr hbuild
    cases hc : pyGetKey debate "comet score" with
    | error e2 =>
        have hres : process_one_file env p = (mkFailure p e2, []) := by
          simp [process_one_file, hr, hc]
        exact ⟨_, _, _, by rw [hres]; rfl⟩
    | ok c =>
        have hres : process_one_file env p = (mkFailure p e, []) := by
          simp [process_one_file, hr, hc, hbuild]
        exact ⟨_, _, _, by rw [hres]; rfl⟩

/-- Witness for C10: the seed of the sample Record is the content of
Affirmative turn 5; the record with a five-entry Affirmative side yields
a Failure naming the file; and so does a record lacking the `players`
key. -/
theorem C10_seed_index_witness :
    (∃ fifth seed tail, sampleAff.get? 5 = some fifth ∧ sampleRows = seed :: tail ∧
        pyGetKey fifth "content" = .ok seed.utterance) ∧
    (∃ err tr events,
        process_one_file shortEnv "MAD_Debate_Process/short.json" =
          (.failure (basename "MAD_Debate_Process/short.json") err tr, events)) ∧
    (∃ err tr events,
        process_one_file noPlayersEnv "MAD_Debate_Process/nokeys.json" =
          (.failure (basename "MAD_Debate_Process/nokeys.json") err tr, events)) :=
  ⟨C10_seed_index.1 sampleDebate samplePlayers sampleAff sampleRows rfl rfl rfl,
   C10_seed_index.2.1 shortEnv "MAD_Debate_Process/short.json" shortDebate shortPlayers
     shortAff rfl rfl rfl (by decide),
   C10_seed_index.2.2 noPlayersEnv "MAD_Debate_Process/nokeys.json" noPlayersDebate
     (keyError "players") rfl rfl⟩

end AlignmentCorrelation
